import Mathlib

/-!
Verification of the `bbcstyle` repository against its specification.

The development shallowly embeds the two core units of the repository:
`bbc_theme` (src/bbcstyle/theme.py) as a pure update of a process-wide
rendering-defaults state, and `finalise_plot` (src/bbcstyle/finalise_plot.py,
the active definition at lines 48-107) as a pure function from its arguments
to the list of rendering / file-system effects the Python body performs, in
source order.  A small interpreter (`step` / `run`) gives file-system
semantics to the save / open / paste / save effects so that claims about
files on disk can be settled.
-/

namespace BBCStyle

/-! ## Python string model

`finalise_plot` computes its temporary path with
`output_path.replace(".png", "_tmp.png")`.  `pyReplace` embeds Python's
`str.replace`: scan left to right, replacing non-overlapping occurrences of
the (non-empty) pattern.  Fuel-based structural recursion keeps the
definition kernel-reducible; the fuel equals the string length, and a step
always consumes at least one character, so it is never exhausted.
-/

/-- Tests whether `pat` is an initial segment of the second list. -/
def listStartsWith : List Char → List Char → Bool
  | [], _ => true
  | _ :: _, [] => false
  | p :: ps, c :: cs => p == c && listStartsWith ps cs

/-- Tests whether `pat` occurs as a contiguous subsequence (Python `in`). -/
def containsSub (pat : List Char) : List Char → Bool
  | [] => listStartsWith pat []
  | c :: rest => listStartsWith pat (c :: rest) || containsSub pat rest

/-- Worker for `pyReplace`: replace occurrences of `pat` by `rep`, left to
right, non-overlapping, driven by a fuel argument. -/
def replaceGo (pat rep : List Char) : Nat → List Char → List Char
  | _, [] => []
  | 0, s => s
  | fuel + 1, c :: rest =>
    if pat ≠ [] ∧ listStartsWith pat (c :: rest) = true then
      rep ++ replaceGo pat rep fuel (List.drop (pat.length - 1) rest)
    else
      c :: replaceGo pat rep fuel rest

/-- Python's `s.replace(pat, rep)` for a non-empty pattern. -/
def pyReplace (s pat rep : String) : String :=
  ⟨replaceGo pat.data rep.data s.data.length s.data⟩

/-- Modelled from the spec: step 6 of §4.2 derives the temporary path from
`output_path` "by inserting a suffix before the extension".  This inserts
`"_tmp"` immediately before the last dot of the path (or appends it when the
path has no dot).  It exists only to compare the spec's wording with the
code's actual `replace`-based computation. -/
def insert_before_ext_list (sfx : List Char) : List Char → List Char
  | [] => sfx
  | c :: rest =>
    if c = '.' ∧ '.' ∉ rest then sfx ++ c :: rest
    else c :: insert_before_ext_list sfx rest

/-- Modelled from the spec: the temporary path with `"_tmp"` inserted before
the extension of `out`. -/
def spec_tmp_path (out : String) : String :=
  ⟨insert_before_ext_list "_tmp".data out.data⟩

/-! ## The finaliser's arguments and effects -/

/-- Python truthiness of an optional string: `None` and `""` are falsy. -/
def truthy : Option String → Bool
  | none => false
  | some s => !(s == "")

/-- Arguments of `finalise_plot` (src/bbcstyle/finalise_plot.py lines 48-58).
The field order follows the Python signature (the `fig` object itself is the
implicit subject of the emitted effects). -/
structure FinaliseArgs where
  output_path : Option String
  source : Option String
  logo_path : Option String
  title : Option String
  subtitle : Option String
  logo_position : Int × Int
  fig_size : Int × Int
  dpi : Nat
  deriving DecidableEq

/-- One observable call the body of `finalise_plot` makes, with exactly the
arguments the Python source passes.  Coordinates are the decimal literals of
the source read as rationals; keyword arguments that the source omits are
`none` (e.g. `fig.text` is never given a `va`). -/
inductive Effect
  | set_size_inches (w h : Int)
  | subplots_adjust (top : Rat)
  | suptitle (text : String) (x y : Rat) (ha : String)
  | fig_text (x y : Rat) (text : String) (ha : String)
      (fontsize : Option Nat) (color : Option String) (va : Option String)
  | savefig (path : String) (dpi : Nat) (facecolor : String)
  | image_open (path : String)
  | image_open_rgba (path : String)
  | paste (pos : Int × Int) (mask_is_pasted_image : Bool)
  | image_save (path : String)
  deriving DecidableEq

/-- Effects of the `if title:` block (line 69-70):
`fig.suptitle(title, x=0.05, y=0.99, ha="left")`. -/
def title_effects : Option String → List Effect
  | none => []
  | some s =>
    if s == "" then []
    else [Effect.suptitle s (5 / 100) (99 / 100) "left"]

/-- Effects of the `if subtitle:` block (lines 73-80):
`fig.text(0.05, 0.90, subtitle, ha="left", fontsize=17)`. -/
def subtitle_effects : Option String → List Effect
  | none => []
  | some s =>
    if s == "" then []
    else [Effect.fig_text (5 / 100) (90 / 100) s "left" (some 17) none none]

/-- Effects of the `if source:` block (lines 83-91):
`fig.text(0.01, 0.001, source, fontsize=14, color="#555555", ha="left")`. -/
def source_effects : Option String → List Effect
  | none => []
  | some s =>
    if s == "" then []
    else [Effect.fig_text (1 / 100) (1 / 1000) s "left" (some 14) (some "#555555") none]

/-- The `tmp_path` local of lines 94-96: initialised to `output_path` and
reassigned to `output_path.replace(".png", "_tmp.png")` when both `logo_path`
and `output_path` are truthy. -/
def tmp_path (a : FinaliseArgs) : Option String :=
  if truthy a.logo_path && truthy a.output_path then
    a.output_path.map (fun p => pyReplace p ".png" "_tmp.png")
  else a.output_path

/-- Effects of the `if output_path:` block (lines 99-100):
`fig.savefig(tmp_path, dpi=dpi, facecolor="white")`. -/
def save_effects (a : FinaliseArgs) : List Effect :=
  match a.output_path with
  | none => []
  | some op =>
    if op == "" then []
    else [Effect.savefig ((tmp_path a).getD "") a.dpi "white"]

/-- Effects of the `if logo_path and output_path:` block (lines 103-107):
open the raster at `tmp_path`, open the logo converted to RGBA, paste it at
`logo_position` using the logo itself as the mask, save to `output_path`. -/
def logo_effects (a : FinaliseArgs) : List Effect :=
  match a.logo_path, a.output_path with
  | some lp, some op =>
    if lp == "" || op == "" then []
    else
      [Effect.image_open ((tmp_path a).getD ""),
       Effect.image_open_rgba lp,
       Effect.paste a.logo_position true,
       Effect.image_save op]
  | _, _ => []

/-- The unconditional sizing and decoration part of the body, in source
order: `fig.set_size_inches(*fig_size)` (line 64), `fig.subplots_adjust(top=0.82)`
(line 66), then the three conditional text blocks. -/
def decoration_effects (a : FinaliseArgs) : List Effect :=
  [Effect.set_size_inches a.fig_size.1 a.fig_size.2,
   Effect.subplots_adjust (82 / 100)]
  ++ title_effects a.title
  ++ subtitle_effects a.subtitle
  ++ source_effects a.source

/-- The full effect trace of one `finalise_plot` call, in source order. -/
def finalise_plot (a : FinaliseArgs) : List Effect :=
  decoration_effects a ++ save_effects a ++ logo_effects a

/-- Effects that write a file to disk (`fig.savefig`, `background.save`). -/
def is_write : Effect → Bool
  | Effect.savefig _ _ _ => true
  | Effect.image_save _ => true
  | _ => false

/-- Effects that only draw on the in-memory figure and neither touch the
file system nor the compositor state. -/
def is_draw : Effect → Bool
  | Effect.set_size_inches _ _ => true
  | Effect.subplots_adjust _ => true
  | Effect.suptitle _ _ _ _ => true
  | Effect.fig_text _ _ _ _ _ _ _ => true
  | _ => false

/-- Modelled from the spec: C5 describes the source text as drawn
"centered horizontally" with its "bottom edge" anchored at the given y,
i.e. a text effect with horizontal alignment `"center"` or vertical
anchor `"bottom"`. -/
def spec_centered_bottom : Effect → Bool
  | Effect.fig_text _ _ _ ha _ _ va => ha == "center" || va == some "bottom"
  | _ => false

/-! ## Signature evidence

The keyword parameters of the active `finalise_plot` definition, and the
keyword arguments two gallery scripts pass to it.  These record the call
sites verbatim so that signature mismatches can be stated. -/

/-- Parameters of `finalise_plot` (src/bbcstyle/finalise_plot.py lines 48-58). -/
def finalise_plot_params : List String :=
  ["fig", "output_path", "source", "logo_path", "title", "subtitle",
   "logo_position", "fig_size", "dpi"]

/-- Keyword arguments of the call in src/examples/gallery/01_bar_chart.py
lines 98-107. -/
def bar_chart_call_kwargs : List String :=
  ["fig", "output_path", "title", "subtitle", "logo_path", "dpi", "enforce_size"]

/-- Keyword arguments of the call in src/examples/gallery/04_histograms.py
lines 339-346. -/
def histograms_call_kwargs : List String :=
  ["fig", "logo_path", "source", "logo_zoom", "logo_vertical_pad_pts",
   "divider_gap_pts"]

/-! ## File-system semantics of the effect trace -/

/-- Contents of a file produced by the finaliser: either a raster written by
`fig.savefig`, or such a raster with the logo composited onto it. -/
inductive FileData
  | raster (dpi : Nat) (facecolor : String)
  | composited (base : FileData) (logo : String) (pos : Int × Int)
  deriving DecidableEq

/-- Interpreter state: the file system as an association list (most recent
write first), the currently opened background image, and the currently
opened logo image. -/
structure PState where
  fs : List (String × FileData)
  bg : Option FileData
  logo_img : Option String
  deriving DecidableEq

/-- Lookup of a path in the file system (most recent write wins). -/
def lookupFile (p : String) : List (String × FileData) → Option FileData
  | [] => none
  | (q, d) :: rest => if q == p then some d else lookupFile p rest

/-- One effect's action on the interpreter state.  Drawing effects leave the
state unchanged; `savefig` writes a fresh raster; `Image.open` loads the file
at the path; `.convert("RGBA")` on the logo records it; `paste` composites the
logo onto the opened background; `background.save` writes the background. -/
def step (s : PState) : Effect → PState
  | Effect.savefig p d fc => ⟨(p, FileData.raster d fc) :: s.fs, s.bg, s.logo_img⟩
  | Effect.image_open p => ⟨s.fs, lookupFile p s.fs, s.logo_img⟩
  | Effect.image_open_rgba p => ⟨s.fs, s.bg, some p⟩
  | Effect.paste pos _ =>
    match s.bg, s.logo_img with
    | some b, some l => ⟨s.fs, some (FileData.composited b l pos), s.logo_img⟩
    | _, _ => s
  | Effect.image_save p =>
    match s.bg with
    | some b => ⟨(p, b) :: s.fs, s.bg, s.logo_img⟩
    | none => s
  | _ => s

/-- Run a whole effect trace from a state. -/
def run (s : PState) : List Effect → PState
  | [] => s
  | e :: rest => run (step s e) rest

/-! ## The theme setter (src/bbcstyle/theme.py) -/

/-- A value stored in an rcParams entry. -/
inductive RcVal
  | strv (v : String)
  | natv (v : Nat)
  | boolv (v : Bool)
  | cyclev (v : List String)
  deriving DecidableEq

/-- The `rc` dictionary built by `bbc_theme` (src/bbcstyle/theme.py lines
17-47), in source order, with the three local color variables
(`base_color = "#222222"`, `grid_color = "#cbcbcb"`,
`accent_color = "#007f7f"`) inlined. -/
def bbc_theme_rc (font_family : String) : List (String × RcVal) :=
  [("font.family", RcVal.strv font_family),
   ("axes.titlesize", RcVal.natv 28),
   ("axes.titleweight", RcVal.strv "bold"),
   ("axes.titlecolor", RcVal.strv "#222222"),
   ("axes.labelsize", RcVal.natv 0),
   ("xtick.labelsize", RcVal.natv 18),
   ("ytick.labelsize", RcVal.natv 18),
   ("text.color", RcVal.strv "#222222"),
   ("axes.edgecolor", RcVal.strv "none"),
   ("axes.grid", RcVal.boolv true),
   ("axes.axisbelow", RcVal.boolv true),
   ("axes.prop_cycle", RcVal.cyclev ["#007f7f"]),
   ("grid.color", RcVal.strv "#cbcbcb"),
   ("grid.linestyle", RcVal.strv "-"),
   ("grid.linewidth", RcVal.natv 1),
   ("xtick.bottom", RcVal.boolv false),
   ("xtick.top", RcVal.boolv false),
   ("ytick.left", RcVal.boolv false),
   ("ytick.right", RcVal.boolv false),
   ("legend.frameon", RcVal.boolv false),
   ("legend.loc", RcVal.strv "upper center"),
   ("legend.framealpha", RcVal.natv 0),
   ("legend.fontsize", RcVal.natv 18)]

/-- Lookup of a key in an rcParams association list (first match wins, and
an update prepends, so later updates override earlier entries). -/
def alookup (k : String) : List (String × RcVal) → Option RcVal
  | [] => none
  | (q, v) :: rest => if q == k then some v else alookup k rest

/-- Process-wide rendering defaults: matplotlib's `rcParams` dictionary and
the rc overrides registered with seaborn's style (if any). -/
structure ThemeState where
  rcParams : List (String × RcVal)
  sns_style : Option (String × List (String × RcVal))
  deriving DecidableEq

/-- The theme setter: `mpl.rcParams.update(rc)` (override semantics, modelled
by prepending the new entries so lookup finds them first) followed by
`sns.set_style("whitegrid", rc=rc)`. -/
def bbc_theme (font_family : String) (st : ThemeState) : ThemeState :=
  ⟨bbc_theme_rc font_family ++ st.rcParams,
   some ("whitegrid", bbc_theme_rc font_family)⟩

/-! ## Concrete argument records used by the claim witnesses -/

/-- Arguments mirroring the call in src/examples/gallery/04_histograms.py:
`logo_path` and a non-empty `source` but no `output_path` (the extra
keywords it passes are recorded in `histograms_call_kwargs`). -/
def c1_args : FinaliseArgs :=
  ⟨none, some "Source: Simulated data | original design by BBC",
   some "assets/bbc_logo.png", none, none, (30, 30), (12, 7), 300⟩

/-- A call with neither title nor subtitle. -/
def c3_args : FinaliseArgs :=
  ⟨none, none, none, none, none, (30, 30), (12, 7), 300⟩

/-- A call with both a logo and a png output path. -/
def c4_args : FinaliseArgs :=
  ⟨some "chart.png", none, some "bbc_logo.png", none, none, (30, 30), (12, 7), 300⟩

/-- A call with every decoration set but no output path. -/
def c4_args_none : FinaliseArgs :=
  ⟨none, some "Source: ONS", some "bbc_logo.png", some "T", some "S", (30, 30), (12, 7), 300⟩

/-- A call with a non-empty source string. -/
def c5_args : FinaliseArgs :=
  ⟨none, some "Source: ONS", none, none, none, (30, 30), (12, 7), 300⟩

/-- A call whose output path has a non-png extension, with a logo. -/
def c6_cx_args : FinaliseArgs :=
  ⟨some "chart.jpg", none, some "logo.png", none, none, (30, 30), (12, 7), 300⟩

/-- A call whose output path has a png extension, with a logo. -/
def c6_args : FinaliseArgs :=
  ⟨some "plot.png", none, some "logo.png", none, none, (30, 30), (12, 7), 300⟩

/-- A fully decorated call with logo and png output path. -/
def c7_args : FinaliseArgs :=
  ⟨some "bar.png", some "Source: ONS", some "logo.png", some "Title", none, (40, 40), (6, 3), 150⟩

/-- A logo-and-output call used to watch the temporary file persist. -/
def c9_args : FinaliseArgs :=
  ⟨some "plot.png", none, some "logo.png", none, none, (30, 30), (12, 7), 300⟩

/-- A logo call whose output path contains no ".png" substring. -/
def c10_args : FinaliseArgs :=
  ⟨some "figure.jpeg", none, some "logo.png", none, none, (30, 30), (12, 7), 300⟩

/-- An empty process state: no files on disk, nothing opened. -/
def pstate0 : PState := ⟨[], none, none⟩

/-! ## Helper lemmas -/

/-- When the pattern does not occur in the string, each scan step takes the
else branch, so the replacement worker returns its input unchanged. -/
theorem replaceGo_eq_self_of_not_contains (pat rep : List Char) (fuel : Nat)
    (s : List Char) (h : containsSub pat s = false) :
    replaceGo pat rep fuel s = s := by
  induction fuel generalizing s with
  | zero => cases s <;> rfl
  | succ n ih =>
    cases s with
    | nil => rfl
    | cons c rest =>
      simp only [containsSub, Bool.or_eq_false_iff] at h
      rw [replaceGo, if_neg, ih rest h.2]
      rintro ⟨-, hs⟩
      rw [h.1] at hs
      exact Bool.false_ne_true hs

/-- Python's `replace` is the identity when the pattern does not occur. -/
theorem pyReplace_eq_self_of_not_contains (s pat rep : String)
    (h : containsSub pat.data s.data = false) : pyReplace s pat rep = s := by
  obtain ⟨d⟩ := s
  exact congrArg String.mk (replaceGo_eq_self_of_not_contains pat.data rep.data d.length d h)

/-- The `tmp_path` local when both the logo and the output path are truthy. -/
theorem tmp_path_of_logo (a : FinaliseArgs) (lp op : String)
    (hl : a.logo_path = some lp) (ho : a.output_path = some op)
    (hl0 : lp ≠ "") (ho0 : op ≠ "") :
    tmp_path a = some (pyReplace op ".png" "_tmp.png") := by
  have hlb : (lp == "") = false := by simpa using hl0
  have hob : (op == "") = false := by simpa using ho0
  simp [tmp_path, truthy, hl, ho, hlb, hob]

/-- With a truthy logo and output path, the trace is the decorations followed
by the save to the temporary path and the four compositing effects. -/
theorem finalise_plot_logo_split (a : FinaliseArgs) (lp op : String)
    (hl : a.logo_path = some lp) (ho : a.output_path = some op)
    (hl0 : lp ≠ "") (ho0 : op ≠ "") :
    finalise_plot a
      = decoration_effects a
        ++ [Effect.savefig (pyReplace op ".png" "_tmp.png") a.dpi "white",
            Effect.image_open (pyReplace op ".png" "_tmp.png"),
            Effect.image_open_rgba lp,
            Effect.paste a.logo_position true,
            Effect.image_save op] := by
  have hlb : (lp == "") = false := by simpa using hl0
  have hob : (op == "") = false := by simpa using ho0
  have ht := tmp_path_of_logo a lp op hl ho hl0 ho0
  simp [finalise_plot, save_effects, logo_effects, hl, ho, hlb, hob, ht]

/-- Drawing effects do not change the interpreter state. -/
theorem step_of_draw (s : PState) (e : Effect) (h : is_draw e = true) :
    step s e = s := by
  cases e <;> first | rfl | simp [is_draw] at h

/-- Running an appended trace runs the two parts in sequence. -/
theorem run_append (s : PState) (l1 l2 : List Effect) :
    run s (l1 ++ l2) = run (run s l1) l2 := by
  induction l1 generalizing s with
  | nil => rfl
  | cons e rest ih =>
    simp only [List.cons_append, run]
    exact ih (step s e)

/-- Running a trace of drawing effects leaves the state unchanged. -/
theorem run_of_draws (s : PState) (l : List Effect)
    (h : ∀ e ∈ l, is_draw e = true) : run s l = s := by
  induction l generalizing s with
  | nil => rfl
  | cons e rest ih =>
    simp only [run]
    rw [step_of_draw s e (h e (List.mem_cons_self e rest))]
    exact ih s fun x hx => h x (List.mem_cons_of_mem e hx)

/-- The title block emits only drawing effects. -/
theorem title_effects_draw (t : Option String) :
    ∀ e ∈ title_effects t, is_draw e = true := by
  intro e he
  cases t with
  | none => simp [title_effects] at he
  | some s =>
    simp only [title_effects] at he
    split at he
    · simp at he
    · simp at he
      subst he
      rfl

/-- The subtitle block emits only drawing effects. -/
theorem subtitle_effects_draw (t : Option String) :
    ∀ e ∈ subtitle_effects t, is_draw e = true := by
  intro e he
  cases t with
  | none => simp [subtitle_effects] at he
  | some s =>
    simp only [subtitle_effects] at he
    split at he
    · simp at he
    · simp at he
      subst he
      rfl

/-- The source block emits only drawing effects. -/
theorem source_effects_draw (t : Option String) :
    ∀ e ∈ source_effects t, is_draw e = true := by
  intro e he
  cases t with
  | none => simp [source_effects] at he
  | some s =>
    simp only [source_effects] at he
    split at he
    · simp at he
    · simp at he
      subst he
      rfl

/-- The sizing and decoration part emits only drawing effects. -/
theorem decoration_effects_draw (a : FinaliseArgs) :
    ∀ e ∈ decoration_effects a, is_draw e = true := by
  intro e he
  simp only [decoration_effects, List.append_assoc, List.mem_append, List.mem_cons,
    List.not_mem_nil, or_false] at he
  rcases he with (rfl | rfl) | ht | hst | hsf
  · rfl
  · rfl
  · exact title_effects_draw a.title e ht
  · exact subtitle_effects_draw a.subtitle e hst
  · exact source_effects_draw a.source e hsf

/-- A drawing effect is not a file write. -/
theorem not_write_of_draw (e : Effect) (h : is_draw e = true) :
    is_write e = false := by
  cases e <;> first | rfl | simp [is_draw] at h

/-- Running the full trace of a logo-and-output call: the raster is written
at the temporary path, then the composite of that raster and the logo is
written at the output path. -/
theorem run_finalise_logo (a : FinaliseArgs) (lp op : String)
    (hl : a.logo_path = some lp) (ho : a.output_path = some op)
    (hl0 : lp ≠ "") (ho0 : op ≠ "") (s0 : PState) :
    run s0 (finalise_plot a)
      = ⟨(op, FileData.composited (FileData.raster a.dpi "white") lp a.logo_position)
          :: (pyReplace op ".png" "_tmp.png", FileData.raster a.dpi "white") :: s0.fs,
         some (FileData.composited (FileData.raster a.dpi "white") lp a.logo_position),
         some lp⟩ := by
  rw [finalise_plot_logo_split a lp op hl ho hl0 ho0, run_append,
    run_of_draws s0 _ (decoration_effects_draw a)]
  obtain ⟨fs0, bg0, li0⟩ := s0
  simp [run, step, lookupFile]

/-- Running the trace truncated before its final `background.save` (the
composite step failing at the last moment): only the raster at the temporary
path has been written. -/
theorem run_finalise_logo_dropLast (a : FinaliseArgs) (lp op : String)
    (hl : a.logo_path = some lp) (ho : a.output_path = some op)
    (hl0 : lp ≠ "") (ho0 : op ≠ "") (s0 : PState) :
    run s0 ((finalise_plot a).dropLast)
      = ⟨(pyReplace op ".png" "_tmp.png", FileData.raster a.dpi "white") :: s0.fs,
         some (FileData.composited (FileData.raster a.dpi "white") lp a.logo_position),
         some lp⟩ := by
  rw [finalise_plot_logo_split a lp op hl ho hl0 ho0, List.dropLast_append_cons]
  rw [show
      ([Effect.savefig (pyReplace op ".png" "_tmp.png") a.dpi "white",
        Effect.image_open (pyReplace op ".png" "_tmp.png"),
        Effect.image_open_rgba lp,
        Effect.paste a.logo_position true,
        Effect.image_save op] : List Effect).dropLast
      = [Effect.savefig (pyReplace op ".png" "_tmp.png") a.dpi "white",
         Effect.image_open (pyReplace op ".png" "_tmp.png"),
         Effect.image_open_rgba lp,
         Effect.paste a.logo_position true]
    from rfl]
  rw [run_append, run_of_draws s0 _ (decoration_effects_draw a)]
  obtain ⟨fs0, bg0, li0⟩ := s0
  simp [run, step, lookupFile]

/-! ## Claim theorems -/

/-- Claim C1: the spec says that for a non-empty `source` the finaliser
forces a render pass, measures the source text's box and draws a
`divider_gap_pts`-controlled divider line.  The code has no such feature:
the repo's own gallery call (src/examples/gallery/04_histograms.py) passes
`divider_gap_pts`, but `finalise_plot` accepts no such parameter, and the
trace of a call with a non-empty source contains only the sizing, the top
adjustment and one text draw — no render pass, no measurement, no line. -/
theorem C1_no_divider :
    ("divider_gap_pts" ∈ histograms_call_kwargs)
    ∧ ("divider_gap_pts" ∉ finalise_plot_params)
    ∧ finalise_plot c1_args
        = [Effect.set_size_inches 12 7, Effect.subplots_adjust (82 / 100),
           Effect.fig_text (1 / 100) (1 / 1000)
             "Source: Simulated data | original design by BBC" "left" (some 14)
             (some "#555555") none] :=
  ⟨by decide, by decide, rfl⟩

/-- Claim C2: the spec says `finalise_plot` resizes to `fig_size` only when
`enforce_size` is true.  The code has no `enforce_size` parameter — although
the repo's own gallery call (src/examples/gallery/01_bar_chart.py) passes
`enforce_size=True` — and `fig.set_size_inches(*fig_size)` is the
unconditional first statement of the body for every call. -/
theorem C2_enforce_size_missing :
    ("enforce_size" ∈ bar_chart_call_kwargs)
    ∧ ("enforce_size" ∉ finalise_plot_params)
    ∧ ∀ a : FinaliseArgs,
        (finalise_plot a).head?
          = some (Effect.set_size_inches a.fig_size.1 a.fig_size.2) :=
  ⟨by decide, by decide, fun _ => rfl⟩

/-- Claim C3 counterexample: with `title = None` and `subtitle = None` the
trace still contains `fig.subplots_adjust(top=0.82)`, so the claim's
"if and only if" (and its "left unchanged when both are absent") is false. -/
theorem C3_counterexample :
    c3_args.title = none ∧ c3_args.subtitle = none
    ∧ Effect.subplots_adjust (82 / 100) ∈ finalise_plot c3_args := by
  refine ⟨rfl, rfl, ?_⟩
  simp [finalise_plot, c3_args, decoration_effects, title_effects,
    subtitle_effects, source_effects, save_effects, logo_effects]

/-- Claim C3, amended: `finalise_plot` always reduces the plotting area's
top boundary to 82% of the canvas height, whether or not a title or
subtitle is present. -/
theorem C3_always_adjusts_top (a : FinaliseArgs) :
    Effect.subplots_adjust (82 / 100) ∈ finalise_plot a := by
  simp [finalise_plot, decoration_effects, List.mem_append]

/-- Claim C4: with both `logo_path` and `output_path` truthy the figure is
first saved to the temporary path, which is then re-opened, composited with
the logo and saved to `output_path` — in that order; and with
`output_path = None` the trace contains no file-writing effect at all,
whatever the other options. -/
theorem C4_save_then_composite :
    (∀ (a : FinaliseArgs) (lp op : String),
        a.logo_path = some lp → a.output_path = some op → lp ≠ "" → op ≠ "" →
        finalise_plot a
          = decoration_effects a
            ++ [Effect.savefig (pyReplace op ".png" "_tmp.png") a.dpi "white",
                Effect.image_open (pyReplace op ".png" "_tmp.png"),
                Effect.image_open_rgba lp,
                Effect.paste a.logo_position true,
                Effect.image_save op])
    ∧ (∀ a : FinaliseArgs, a.output_path = none →
        (finalise_plot a).filter is_write = []) := by
  constructor
  · exact fun a lp op hl ho hl0 ho0 => finalise_plot_logo_split a lp op hl ho hl0 ho0
  · intro a h
    have hd : (decoration_effects a).filter is_write = [] := by
      rw [List.filter_eq_nil_iff]
      intro e he
      simp [not_write_of_draw e (decoration_effects_draw a e he)]
    cases hlp : a.logo_path <;>
      simp [finalise_plot, save_effects, logo_effects, h, hlp, List.filter_append, hd]

/-- Claim C4 witness: evaluated on a logo-and-output call and on a call
without an output path. -/
theorem C4_witness :
    (finalise_plot c4_args
      = decoration_effects c4_args
        ++ [Effect.savefig (pyReplace "chart.png" ".png" "_tmp.png") 300 "white",
            Effect.image_open (pyReplace "chart.png" ".png" "_tmp.png"),
            Effect.image_open_rgba "bbc_logo.png",
            Effect.paste (30, 30) true,
            Effect.image_save "chart.png"])
    ∧ (finalise_plot c4_args_none).filter is_write = [] :=
  ⟨C4_save_then_composite.1 c4_args "bbc_logo.png" "chart.png" rfl rfl
      (by decide) (by decide),
   C4_save_then_composite.2 c4_args_none rfl⟩

/-- Claim C5 counterexample: the claim says the source text is drawn
centered horizontally at y ≈ 0.012 with its bottom edge anchored there; on
a call with a non-empty source, no emitted text effect is centered or
bottom-anchored (the code draws at x=0.01, y=0.001 with `ha="left"` and no
`va`). -/
theorem C5_counterexample :
    truthy c5_args.source = true
    ∧ (finalise_plot c5_args).any spec_centered_bottom = false :=
  ⟨rfl, rfl⟩

/-- Claim C5, amended: for every non-empty `source`, the source text is
drawn left-aligned at normalized (0.01, 0.001) in grey "#555555" at font
size 14, with no vertical anchoring specified. -/
theorem C5_source_text_left (a : FinaliseArgs) (s : String)
    (hs : a.source = some s) (h0 : s ≠ "") :
    Effect.fig_text (1 / 100) (1 / 1000) s "left" (some 14) (some "#555555") none
      ∈ finalise_plot a := by
  have hb : (s == "") = false := by simpa using h0
  simp [finalise_plot, decoration_effects, source_effects, hs, hb, List.mem_append]

/-- Claim C5 witness: the amended statement evaluated on a concrete call. -/
theorem C5_witness :
    Effect.fig_text (1 / 100) (1 / 1000) "Source: ONS" "left" (some 14)
      (some "#555555") none ∈ finalise_plot c5_args :=
  C5_source_text_left c5_args "Source: ONS" rfl (by decide)

/-- Claim C6 counterexample: for `output_path = "chart.jpg"` with a logo
requested, the save goes to "chart.jpg" — equal to `output_path`, with no
suffix inserted before the extension (the spec-modelled derivation would
give "chart_tmp.jpg") — refuting "inserting a suffix before the extension
exactly when a logo is also requested". -/
theorem C6_counterexample :
    truthy c6_cx_args.logo_path = true
    ∧ tmp_path c6_cx_args = some "chart.jpg"
    ∧ Effect.savefig "chart.jpg" 300 "white" ∈ finalise_plot c6_cx_args
    ∧ spec_tmp_path "chart.jpg" = "chart_tmp.jpg"
    ∧ ("chart.jpg" : String) ≠ "chart_tmp.jpg" := by
  refine ⟨by decide, by decide, ?_, by decide, by decide⟩
  simp [finalise_plot, c6_cx_args, decoration_effects, title_effects,
    subtitle_effects, source_effects, save_effects, logo_effects, tmp_path, truthy]
  decide

/-- Claim C6, amended: whenever `output_path` is truthy the figure is
rasterized at `dpi` with a solid white facecolor; the write goes to
`output_path.replace(".png", "_tmp.png")` when a logo is also requested
(which inserts "_tmp" before each occurrence of ".png", and equals
`output_path` itself when ".png" does not occur), and directly to
`output_path` otherwise. -/
theorem C6_save_path (a : FinaliseArgs) (op : String)
    (ho : a.output_path = some op) (ho0 : op ≠ "") :
    (truthy a.logo_path = true →
        Effect.savefig (pyReplace op ".png" "_tmp.png") a.dpi "white"
          ∈ finalise_plot a)
    ∧ (truthy a.logo_path = false →
        Effect.savefig op a.dpi "white" ∈ finalise_plot a) := by
  have hob : (op == "") = false := by simpa using ho0
  constructor
  · intro hl
    have hto : truthy (some op) = true := by simp [truthy, hob]
    have ht : tmp_path a = some (pyReplace op ".png" "_tmp.png") := by
      simp [tmp_path, hl, hto, ho]
    simp [finalise_plot, save_effects, ho, hob, ht, List.mem_append]
  · intro hl
    have ht : tmp_path a = some op := by
      simp [tmp_path, hl, ho]
    simp [finalise_plot, save_effects, ho, hob, ht, List.mem_append]

/-- Claim C6 witness: the amended statement evaluated on a png output path
with a logo requested. -/
theorem C6_witness :
    Effect.savefig (pyReplace "plot.png" ".png" "_tmp.png") 300 "white"
      ∈ finalise_plot c6_args :=
  (C6_save_path c6_args "plot.png" rfl (by decide)).1 (by decide)

/-- Claim C7: with both `logo_path` and `output_path` set, the trace ends by
opening the just-written raster at the temporary path, opening the logo
converted to RGBA, pasting it at `logo_position` with the logo itself as the
transparency mask, and saving to `output_path`; under the file-system
semantics the output path then holds the composite of the white-background
raster and the logo at that offset. -/
theorem C7_logo_composite (a : FinaliseArgs) (lp op : String)
    (hl : a.logo_path = some lp) (ho : a.output_path = some op)
    (hl0 : lp ≠ "") (ho0 : op ≠ "") (s0 : PState) :
    finalise_plot a
      = decoration_effects a
        ++ [Effect.savefig (pyReplace op ".png" "_tmp.png") a.dpi "white",
            Effect.image_open (pyReplace op ".png" "_tmp.png"),
            Effect.image_open_rgba lp,
            Effect.paste a.logo_position true,
            Effect.image_save op]
    ∧ lookupFile op (run s0 (finalise_plot a)).fs
        = some (FileData.composited (FileData.raster a.dpi "white") lp
            a.logo_position) := by
  refine ⟨finalise_plot_logo_split a lp op hl ho hl0 ho0, ?_⟩
  rw [run_finalise_logo a lp op hl ho hl0 ho0 s0]
  simp [lookupFile]

/-- Claim C7 witness: evaluated on a concrete logo-and-output call from the
empty process state. -/
theorem C7_witness :
    finalise_plot c7_args
      = decoration_effects c7_args
        ++ [Effect.savefig (pyReplace "bar.png" ".png" "_tmp.png") 150 "white",
            Effect.image_open (pyReplace "bar.png" ".png" "_tmp.png"),
            Effect.image_open_rgba "logo.png",
            Effect.paste (40, 40) true,
            Effect.image_save "bar.png"]
    ∧ lookupFile "bar.png" (run pstate0 (finalise_plot c7_args)).fs
        = some (FileData.composited (FileData.raster 150 "white") "logo.png"
            (40, 40)) :=
  C7_logo_composite c7_args "logo.png" "bar.png" rfl rfl (by decide) (by decide)
    pstate0

/-- Claim C8: after `bbc_theme(font_family)` the process-wide rendering
defaults hold the advertised values — the given font family; bold,
fixed-size, dark titles; zero-size axis labels; light-grey gridlines drawn
below the data; the single accent color as the default cycle; tick marks
hidden on all four sides; a frameless, upper-center, fully transparent
legend — and the same rc overrides are registered with seaborn. -/
theorem C8_theme_defaults (font : String) (st : ThemeState) :
    alookup "font.family" (bbc_theme font st).rcParams = some (RcVal.strv font)
    ∧ alookup "axes.titlesize" (bbc_theme font st).rcParams = some (RcVal.natv 28)
    ∧ alookup "axes.titleweight" (bbc_theme font st).rcParams
        = some (RcVal.strv "bold")
    ∧ alookup "axes.titlecolor" (bbc_theme font st).rcParams
        = some (RcVal.strv "#222222")
    ∧ alookup "axes.labelsize" (bbc_theme font st).rcParams = some (RcVal.natv 0)
    ∧ alookup "axes.grid" (bbc_theme font st).rcParams = some (RcVal.boolv true)
    ∧ alookup "grid.color" (bbc_theme font st).rcParams
        = some (RcVal.strv "#cbcbcb")
    ∧ alookup "axes.axisbelow" (bbc_theme font st).rcParams
        = some (RcVal.boolv true)
    ∧ alookup "axes.prop_cycle" (bbc_theme font st).rcParams
        = some (RcVal.cyclev ["#007f7f"])
    ∧ alookup "xtick.bottom" (bbc_theme font st).rcParams
        = some (RcVal.boolv false)
    ∧ alookup "xtick.top" (bbc_theme font st).rcParams = some (RcVal.boolv false)
    ∧ alookup "ytick.left" (bbc_theme font st).rcParams = some (RcVal.boolv false)
    ∧ alookup "ytick.right" (bbc_theme font st).rcParams
        = some (RcVal.boolv false)
    ∧ alookup "legend.frameon" (bbc_theme font st).rcParams
        = some (RcVal.boolv false)
    ∧ alookup "legend.loc" (bbc_theme font st).rcParams
        = some (RcVal.strv "upper center")
    ∧ alookup "legend.framealpha" (bbc_theme font st).rcParams
        = some (RcVal.natv 0)
    ∧ (bbc_theme font st).sns_style = some ("whitegrid", bbc_theme_rc font) :=
  ⟨rfl, rfl, rfl, rfl, rfl, rfl, rfl, rfl, rfl, rfl, rfl, rfl, rfl, rfl, rfl,
   rfl, rfl⟩

/-- Claim C9: after a logo-and-output call the temporary path still holds a
file (nothing in the trace deletes it), and if the final composite save is
the step that fails — running every effect but the last — the white
base raster is still on disk at the temporary path. -/
theorem C9_tmp_persists (a : FinaliseArgs) (lp op : String)
    (hl : a.logo_path = some lp) (ho : a.output_path = some op)
    (hl0 : lp ≠ "") (ho0 : op ≠ "") (s0 : PState) :
    lookupFile (pyReplace op ".png" "_tmp.png") (run s0 (finalise_plot a)).fs
      ≠ none
    ∧ lookupFile (pyReplace op ".png" "_tmp.png")
        (run s0 ((finalise_plot a).dropLast)).fs
        = some (FileData.raster a.dpi "white") := by
  constructor
  · rw [run_finalise_logo a lp op hl ho hl0 ho0 s0]
    simp only [lookupFile]
    split
    · simp
    · simp [lookupFile]
  · rw [run_finalise_logo_dropLast a lp op hl ho hl0 ho0 s0]
    simp [lookupFile]

/-- Claim C9 witness: evaluated on a concrete logo-and-output call from the
empty process state. -/
theorem C9_witness :
    lookupFile (pyReplace "plot.png" ".png" "_tmp.png")
      (run pstate0 (finalise_plot c9_args)).fs ≠ none
    ∧ lookupFile (pyReplace "plot.png" ".png" "_tmp.png")
        (run pstate0 ((finalise_plot c9_args).dropLast)).fs
        = some (FileData.raster 300 "white") :=
  C9_tmp_persists c9_args "logo.png" "plot.png" rfl rfl (by decide) (by decide)
    pstate0

/-- Claim C10: the temporary path is `output_path` with every occurrence of
".png" replaced by "_tmp.png"; when ".png" does not occur in `output_path`
the temporary path equals `output_path` itself, so the base figure is saved
directly to `output_path` and the composite then overwrites it in place,
with no separate intermediate file. -/
theorem C10_tmp_replace_semantics (a : FinaliseArgs) (lp op : String)
    (hl : a.logo_path = some lp) (ho : a.output_path = some op)
    (hl0 : lp ≠ "") (ho0 : op ≠ "") :
    tmp_path a = some (pyReplace op ".png" "_tmp.png")
    ∧ (containsSub ".png".data op.data = false →
        tmp_path a = some op
        ∧ finalise_plot a
            = decoration_effects a
              ++ [Effect.savefig op a.dpi "white",
                  Effect.image_open op,
                  Effect.image_open_rgba lp,
                  Effect.paste a.logo_position true,
                  Effect.image_save op]) := by
  have ht := tmp_path_of_logo a lp op hl ho hl0 ho0
  refine ⟨ht, fun hnc => ?_⟩
  have hrep : pyReplace op ".png" "_tmp.png" = op :=
    pyReplace_eq_self_of_not_contains op ".png" "_tmp.png" hnc
  constructor
  · rw [ht, hrep]
  · rw [finalise_plot_logo_split a lp op hl ho hl0 ho0, hrep]

/-- Claim C10 witness: evaluated on an output path with no ".png"
substring. -/
theorem C10_witness :
    tmp_path c10_args = some (pyReplace "figure.jpeg" ".png" "_tmp.png")
    ∧ (tmp_path c10_args = some "figure.jpeg"
        ∧ finalise_plot c10_args
            = decoration_effects c10_args
              ++ [Effect.savefig "figure.jpeg" 300 "white",
                  Effect.image_open "figure.jpeg",
                  Effect.image_open_rgba "logo.png",
                  Effect.paste (30, 30) true,
                  Effect.image_save "figure.jpeg"]) :=
  ⟨(C10_tmp_replace_semantics c10_args "logo.png" "figure.jpeg" rfl rfl
      (by decide) (by decide)).1,
   (C10_tmp_replace_semantics c10_args "logo.png" "figure.jpeg" rfl rfl
      (by decide) (by decide)).2 (by decide)⟩

end BBCStyle
